import Mathlib

/-!
# Verification of the AWS-Walled-Garden intercepting proxy core

Shallow embedding of `src/proxyServer.ts` (class `ProxyServer`): hostname
classification, operation extraction, the per-service mock response
generators, the raw tunnel response synthesizer, the tunnel data-event
state machine, and the start/stop lifecycle state.

Strings handled by the JavaScript code are modelled as Lean `String`s and
reasoned about through their character lists.  JavaScript string methods
(`split`, `includes`, `startsWith`, `endsWith`, `indexOf`) are given
explicit executable models below.  `Date.now()` is modelled by a `Nat`
clock parameter threaded to the generators; template-string interpolation
of a number (`${"${n}"}`) is modelled by `jsNatToString`, an executable
decimal printer.
-/

namespace AwsWalledGarden

/-! ## Character-list string primitives (models of JS string methods) -/

/-- `isPrefixOfB needle hay`: `needle` is a prefix of `hay` (boolean). -/
def isPrefixOfB : List Char → List Char → Bool
  | [], _ => true
  | _ :: _, [] => false
  | a :: as, b :: bs => a == b && isPrefixOfB as bs

/-- Index of the first occurrence of `needle` as a contiguous sublist of
`hay`, if any.  Models JS `String.prototype.indexOf` (which returns `-1`,
modelled by `none`, when absent). -/
def firstMatchIdx (needle : List Char) : List Char → Option Nat
  | [] => if isPrefixOfB needle [] then some 0 else none
  | c :: rest =>
    if isPrefixOfB needle (c :: rest) then some 0
    else (firstMatchIdx needle rest).map (· + 1)

/-- `containsSub needle hay`: `needle` occurs as a contiguous sublist of
`hay`.  Models JS `String.prototype.includes`. -/
def containsSub (needle hay : List Char) : Bool :=
  (firstMatchIdx needle hay).isSome

/-- JS `hay.includes(needle)` on `String`s. -/
def jsIncludes (hay needle : String) : Bool :=
  containsSub needle.data hay.data

/-- JS `s.split(sep)[0]`, i.e. the part of `s` before the first occurrence
of the (single) separator character. -/
def splitHead (sep : Char) (s : String) : String :=
  ⟨s.data.takeWhile (· ≠ sep)⟩

/-- Model of a JS regex test anchored at the end (`/pat$/`). -/
def strEndsWith (s suffix : String) : Bool :=
  isPrefixOfB suffix.data.reverse s.data.reverse

/-- Model of a JS regex test anchored at the start (`/^pat/`). -/
def strStartsWith (s pre : String) : Bool :=
  isPrefixOfB pre.data s.data

/-! ## JS decimal printing of numbers (`${"${n}"}` in a template string) -/

/-- Least-significant-first decimal digits, fuel-structured so that it
reduces in the kernel.  The fuel `n + 1` always suffices. -/
def decDigitsRevAux : Nat → Nat → List Nat
  | 0, _ => []
  | fuel + 1, n => if n < 10 then [n] else n % 10 :: decDigitsRevAux fuel (n / 10)

/-- Least-significant-first decimal digits of `n`. -/
def decDigitsRev (n : Nat) : List Nat :=
  decDigitsRevAux (n + 1) n

/-- Decimal digit to its character. -/
def digitCh (d : Nat) : Char := Char.ofNat (48 + d)

/-- Model of JavaScript number-to-string conversion for a nonnegative
integer: its usual decimal representation. -/
def jsNatToString (n : Nat) : String :=
  ⟨((decDigitsRev n).reverse.map digitCh)⟩

/-- Value of a least-significant-first digit list. -/
def decVal (l : List Nat) : Nat :=
  l.foldr (fun d acc => d + 10 * acc) 0

/-! ## UTF-8 byte sequences and base64 (models of `Buffer.from(s)` and
`buf.toString('base64')`) -/

/-- UTF-8 encoding of a single character, as a list of byte values. -/
def charUtf8Bytes (c : Char) : List Nat :=
  let n := c.toNat
  if n < 0x80 then [n]
  else if n < 0x800 then [0xC0 + n / 64, 0x80 + n % 64]
  else if n < 0x10000 then
    [0xE0 + n / 4096, 0x80 + (n / 64) % 64, 0x80 + n % 64]
  else
    [0xF0 + n / 262144, 0x80 + (n / 4096) % 64, 0x80 + (n / 64) % 64, 0x80 + n % 64]

/-- UTF-8 byte sequence of a string (model of `Buffer.from(s)`). -/
def strUtf8Bytes (s : String) : List Nat :=
  (s.data.map charUtf8Bytes).flatten

/-- Byte length of a string when encoded as UTF-8. -/
def utf8ByteLength (s : String) : Nat :=
  (strUtf8Bytes s).length

/-- Character of a 6-bit value in the standard base64 alphabet. -/
def b64Char (n : Nat) : Char :=
  "ABCDEFGHIJKLMNOPQRSTUVWXYZabcdefghijklmnopqrstuvwxyz0123456789+/".data.getD n 'A'

/-- Standard base64 encoding of a byte sequence (model of
`buf.toString('base64')`). -/
def base64Encode : List Nat → String
  | [] => ""
  | [a] => ⟨[b64Char (a / 4), b64Char (a % 4 * 16), '=', '=']⟩
  | [a, b] => ⟨[b64Char (a / 4), b64Char (a % 4 * 16 + b / 16), b64Char (b % 16 * 4), '=']⟩
  | a :: b :: c :: rest =>
    (⟨[b64Char (a / 4), b64Char (a % 4 * 16 + b / 16), b64Char (b % 16 * 4 + c / 64),
       b64Char (c % 64)]⟩ : String) ++ base64Encode rest

/-! ## Data model (from `MockConfig` in `mockManager.ts` and the shapes the
generators in `proxyServer.ts` read from the per-service `serviceConfig`) -/

/-- A JSON-like value, the shape of JS object literals built by the
generators and of configured DynamoDB items. -/
inductive Json where
  | str (s : String)
  | obj (fields : List (String × Json))

/-- An S3 object entry: `{content, metadata: {ContentType}}`
(`metadata`/`ContentType` may be absent, hence `Option`). -/
structure S3Object where
  content : String
  contentType : Option String
deriving DecidableEq

/-- An S3 bucket entry: `{objects: {key: S3Object}}`. -/
structure S3Bucket where
  objects : List (String × S3Object)
deriving DecidableEq

/-- The `serviceConfig` read by `generateS3Response`:
`{buckets: {name: S3Bucket}}`. -/
structure S3Config where
  buckets : List (String × S3Bucket)
deriving DecidableEq

/-- A DynamoDB table entry: the generator only reads `items`. -/
structure DTable where
  items : List Json

/-- The `serviceConfig` read by `generateDynamoDBResponse`:
`{tables: {name: DTable}}`. -/
structure DynamoConfig where
  tables : List (String × DTable)

/-- The parts of `http.IncomingMessage` the mock path reads: HTTP method,
request URL, and the `x-amz-target` header (absent modelled as `none`). -/
structure Req where
  method : String
  url : String
  xAmzTarget : Option String
deriving DecidableEq

/-- Body of a `MockResponse`: the TS field is `any` and holds either a
string (S3 content / empty PUT body) or a JS object. -/
inductive RespBody where
  | text (s : String)
  | json (j : Json)

/-- The `MockResponse` interface of `proxyServer.ts`:
`{statusCode, headers?, body}` (absent `headers` modelled as `[]`). -/
structure MockResponse where
  statusCode : Nat
  headers : List (String × String)
  body : RespBody

/-! ## Request classification (`isAwsRequest`, `identifyService`) -/

/-- `ProxyServer.isAwsRequest`: strips any `:port` suffix
(`hostname.split(':')[0]`), then tests the fixed AWS host patterns. -/
def isAwsRequest (hostname : String) : Bool :=
  let cleanHostname := splitHead ':' hostname
  strEndsWith cleanHostname ".amazonaws.com" ||
  strEndsWith cleanHostname ".aws.amazon.com" ||
  strStartsWith cleanHostname "s3." ||
  strStartsWith cleanHostname "dynamodb." ||
  strStartsWith cleanHostname "lambda." ||
  strStartsWith cleanHostname "sqs." ||
  strStartsWith cleanHostname "sns." ||
  strEndsWith cleanHostname "s3.amazonaws.com" ||
  strEndsWith cleanHostname "dynamodb.amazonaws.com" ||
  strEndsWith cleanHostname "lambda.amazonaws.com"

/-- `ProxyServer.identifyService`: first matching service substring of the
hostname, in the fixed priority order, else `none`. -/
def identifyService (hostname : String) : Option String :=
  if jsIncludes hostname "s3" then some "s3"
  else if jsIncludes hostname "dynamodb" then some "dynamodb"
  else if jsIncludes hostname "lambda" then some "lambda"
  else if jsIncludes hostname "sqs" then some "sqs"
  else if jsIncludes hostname "sns" then some "sns"
  else none

/-! ## Operation extraction (`extractOperation`) -/

/-- JS `s.split(sep)` for a single-character separator, on char lists. -/
def splitOnCh (sep : Char) : List Char → List (List Char)
  | [] => [[]]
  | c :: rest =>
    let r := splitOnCh sep rest
    if c = sep then [] :: r
    else
      match r with
      | [] => [[c]]
      | h :: t => (c :: h) :: t

/-- JS `s.split(sep)` for a single-character separator, on `String`s. -/
def jsSplit (sep : Char) (s : String) : List String :=
  (splitOnCh sep s.data).map (⟨·⟩)

/-- The fallback branch of `ProxyServer.extractOperation`:
`` `${method}_${url.split('/')[1] || 'unknown'}` ``. -/
def extractOperationFallback (req : Req) : String :=
  let seg := (jsSplit '/' req.url).getD 1 ""
  req.method ++ "_" ++ (if seg = "" then "unknown" else seg)

/-- `ProxyServer.extractOperation`: if the `x-amz-target` header is truthy
(present and non-empty), `target.split('.').pop() || 'unknown'`; otherwise
the method/path fallback. -/
def extractOperation (req : Req) : String :=
  match req.xAmzTarget with
  | some target =>
    if target = "" then extractOperationFallback req
    else
      let last := (jsSplit '.' target).getLastD ""
      if last = "" then "unknown" else last
  | none => extractOperationFallback req

/-! ## S3 generator (`generateS3Response`) -/

/-- Model of JS `Date.prototype.toUTCString` at clock value `now`.  No
claim depends on the calendar formatting, only on the header being a
function of the clock; the formatting itself is not modelled further. -/
def dateToUTCString (now : Nat) : String :=
  "UTC " ++ jsNatToString now

/-- The optional chain `serviceConfig.buckets?.[bucket]?.objects?.[key]`. -/
def lookupS3Object (serviceConfig : S3Config) (bucket key : String) :
    Option S3Object :=
  match serviceConfig.buckets.lookup bucket with
  | some bucketConfig => bucketConfig.objects.lookup key
  | none => none

/-- The 404 fall-through response of `generateS3Response`. -/
def s3NotFound : MockResponse :=
  { statusCode := 404, headers := [],
    body := .json (Json.obj [("error", Json.str "Not Found")]) }

/-- `const pathParts = url.split('/').filter(p => p)`. -/
def s3PathParts (url : String) : List String :=
  (jsSplit '/' url).filter (· ≠ "")

/-- `const bucket = pathParts[0]` (JS `undefined` modelled as `""`). -/
def s3ReqBucket (url : String) : String :=
  (s3PathParts url).getD 0 ""

/-- `const key = pathParts.slice(1).join('/')`. -/
def s3ReqKey (url : String) : String :=
  String.intercalate "/" ((s3PathParts url).drop 1)

/-- `ProxyServer.generateS3Response` at clock value `now` (`Date.now()`
and `new Date()` both read the wall clock at response time).  Path is
split on `/` with empty parts dropped; `bucket` is the first part, `key`
the rest re-joined with `/`; JS truthiness of `bucket`/`key` is
non-emptiness.  A GET whose object lookup fails falls through to the PUT
test and then to the 404, exactly as in the source. -/
def generateS3Response (operation : String) (serviceConfig : S3Config)
    (req : Req) (now : Nat) : MockResponse :=
  let bucket := s3ReqBucket req.url
  let key := s3ReqKey req.url
  let getObject :=
    if req.method = "GET" ∧ bucket ≠ "" ∧ key ≠ "" then
      lookupS3Object serviceConfig bucket key
    else none
  match getObject with
  | some objectConfig =>
    { statusCode := 200
      headers :=
        [("Content-Type", objectConfig.contentType.getD "application/octet-stream"),
         ("ETag", "\"" ++ jsNatToString now ++ "\""),
         ("Last-Modified", dateToUTCString now)]
      body := .text objectConfig.content }
  | none =>
    if req.method = "PUT" ∧ bucket ≠ "" ∧ key ≠ "" then
      { statusCode := 200
        headers := [("ETag", "\"" ++ jsNatToString now ++ "\"")]
        body := .text "" }
    else s3NotFound

/-! ## DynamoDB generator (`generateDynamoDBResponse`) -/

/-- The chain `serviceConfig.tables?.Users?.items?.[0] || {}` (the table
name `Users` is hardcoded in the source).  Configured items are JS
objects, hence truthy, so `|| {}` fires exactly when the chain yields no
item. -/
def firstUsersItem (serviceConfig : DynamoConfig) : Json :=
  match serviceConfig.tables.lookup "Users" with
  | some table => table.items.headD (Json.obj [])
  | none => Json.obj []

/-- `ProxyServer.generateDynamoDBResponse`: dispatch on substrings of the
operation token. -/
def generateDynamoDBResponse (operation : String)
    (serviceConfig : DynamoConfig) (req : Req) : MockResponse :=
  if jsIncludes operation "GetItem" then
    { statusCode := 200, headers := [],
      body := .json (Json.obj [("Item", firstUsersItem serviceConfig)]) }
  else if jsIncludes operation "PutItem" then
    { statusCode := 200, headers := [], body := .json (Json.obj []) }
  else
    { statusCode := 400, headers := [],
      body := .json (Json.obj [("error", Json.str "Unsupported operation")]) }

/-! ## Tunnel response synthesizer (`generateMockHttpResponse`) -/

/-- `JSON.stringify({result: 'Mock Lambda response'})`, the payload fed to
`Buffer.from(...)` in the lambda branch. -/
def lambdaInnerJson : String :=
  "\x7b\"result\":\"Mock Lambda response\"\x7d"

/-- `ProxyServer.generateMockHttpResponse`: the raw HTTP response text
written back through an intercepted tunnel.  The four possible bodies are
the `JSON.stringify` results of the four object literals in the source;
`responseBody.length` is the JS string length (UTF-16 code units, equal to
the code-point count for these texts). -/
def generateMockHttpResponse (hostname requestLine : String) : String :=
  let responseBody :=
    if jsIncludes hostname "s3" && jsIncludes requestLine "GET" then
      "\x7b\"message\":\"Mock S3 GetObject response\"\x7d"
    else if jsIncludes hostname "dynamodb" && jsIncludes requestLine "POST" then
      "\x7b\"Item\":\x7b\"id\":\x7b\"S\":\"user1\"\x7d,\"name\":\x7b\"S\":\"Mock User\"\x7d\x7d\x7d"
    else if jsIncludes hostname "lambda" && jsIncludes requestLine "POST" then
      "\x7b\"Payload\":\"" ++ base64Encode (strUtf8Bytes lambdaInnerJson) ++ "\"\x7d"
    else
      "\x7b\"error\":\"Service not mocked\"\x7d"
  "HTTP/1.1 200 OK\r\nContent-Type: application/x-amz-json-1.0\r\nContent-Length: "
    ++ jsNatToString responseBody.length ++ "\r\n\r\n" ++ responseBody

/-! ## Tunnel data-event state machine (`handleHttpsTunnel`) -/

/-- The double-CRLF header terminator searched for by
`buffer.indexOf('\r\n\r\n')`. -/
def crlfcrlf : List Char := ['\r', '\n', '\r', '\n']

/-- A single CRLF, the line separator of `requestStr.split('\r\n')`. -/
def crlf : List Char := ['\r', '\n']

/-- The per-tunnel session state captured by the `data` closure: the
accumulated byte buffer and the `expectingRequest` flag. -/
structure TunnelState where
  buffer : List Char
  expectingRequest : Bool

/-- Initial tunnel state: `buffer = head`, `expectingRequest = true`. -/
def initTunnelState (head : List Char) : TunnelState :=
  { buffer := head, expectingRequest := true }

/-- `buffer.slice(0, headerEnd).toString().split('\r\n')[0]`: the request
line of the buffered request head. -/
def requestLineOf (buffer : List Char) (headerEnd : Nat) : String :=
  let requestStr := buffer.take headerEnd
  match firstMatchIdx crlf requestStr with
  | some i => ⟨requestStr.take i⟩
  | none => ⟨requestStr⟩

/-- One `data` event of `handleHttpsTunnel`: append the chunk while
`expectingRequest`, search for the double CRLF, and on first find flip the
flag and write the synthesized response.  Returns the new state and the
list of responses written during this event. -/
def stepTunnel (hostname : String) (st : TunnelState) (chunk : List Char) :
    TunnelState × List String :=
  if st.expectingRequest then
    let buffer := st.buffer ++ chunk
    match firstMatchIdx crlfcrlf buffer with
    | some headerEnd =>
      ({ buffer := buffer, expectingRequest := false },
       [generateMockHttpResponse hostname (requestLineOf buffer headerEnd)])
    | none => ({ buffer := buffer, expectingRequest := true }, [])
  else (st, [])

/-- All responses written over a sequence of `data` events. -/
def runTunnel (hostname : String) (st : TunnelState) :
    List (List Char) → List String
  | [] => []
  | chunk :: rest =>
    let next := stepTunnel hostname st chunk
    next.2 ++ runTunnel hostname next.1 rest

/-! ## Lifecycle state (`stop`) -/

/-- The mutable server state touched by `start`/`stop`: whether
`this.server` holds a listening server, and the two proxy-routing
environment variables. -/
structure ProxyState where
  serverListening : Bool
  httpProxyEnv : Option String
  httpsProxyEnv : Option String
deriving DecidableEq

/-- `ProxyServer.stop` as a state transition: when a server exists, close
it, delete both environment variables and null the reference; otherwise
resolve immediately without touching anything.  The TS promise never
rejects, which the model reflects by being a total function into
`ProxyState` (no error outcome). -/
def stop (s : ProxyState) : ProxyState :=
  if s.serverListening then
    { serverListening := false, httpProxyEnv := none, httpsProxyEnv := none }
  else s

/-! ## Catalog and the intercepted-tunnel response path -/

/-- The `MockConfig` interface of `mockManager.ts`: a schema version tag
and a mapping from service name to a free-form service configuration. -/
structure MockConfig where
  version : String
  services : List (String × Json)

/-- The response synthesized on the intercepted-tunnel path of
`handleHttpsTunnel`.  The server's active catalog (`this.config`) is in
scope at the call site, but the synthesis passes only the hostname and
the request line to `generateMockHttpResponse`, so the catalog argument
is never consulted. -/
def tunnelResponseWithCatalog (config : Option MockConfig)
    (hostname requestLine : String) : String :=
  generateMockHttpResponse hostname requestLine

/-! ## The operation-extraction rule as the spec words it -/

/-- The extraction rule exactly as the spec sentence states it, for
comparison with `extractOperation`: "If a provider-style operation header
is present (a dot-delimited target string), the operation is the final
dot-segment.  Otherwise, falls back to `{HTTP method}_{first path
segment}`." -/
def specExtractOperation (req : Req) : String :=
  match req.xAmzTarget with
  | some target => (jsSplit '.' target).getLastD ""
  | none =>
    req.method ++ "_" ++ ((jsSplit '/' req.url).filter (· ≠ "")).headD ""

/-! ## Concrete fixtures used by the closed witness theorems -/

/-- A catalog fragment with bucket `"b"` holding object `"k"` with
content `"X"` and no configured `ContentType`. -/
def demoS3Config : S3Config :=
  { buckets := [("b", { objects := [("k", { content := "X", contentType := none })] })] }

/-- A DynamoDB config with one configured item in table `Users`. -/
def demoDynamoConfig : DynamoConfig :=
  { tables := [("Users", { items := [Json.obj [("id", Json.str "user1")]] })] }

/-- A plain GET request for `/b/k` with no operation header. -/
def demoGetReq : Req := { method := "GET", url := "/b/k", xAmzTarget := none }

/-- A plain GET request for `/b/missing`. -/
def demoGetMissingReq : Req := { method := "GET", url := "/b/missing", xAmzTarget := none }

/-- A PUT request for `/b/new-key`. -/
def demoPutReq : Req := { method := "PUT", url := "/b/new-key", xAmzTarget := none }

/-- A GET request for `/b/new-key` (the key the PUT addressed). -/
def demoGetNewKeyReq : Req := { method := "GET", url := "/b/new-key", xAmzTarget := none }

/-! # Theorems

General-purpose lemmas about the string primitives come first, then one
theorem (plus witness or counterexample) per specification claim. -/

theorem decVal_decDigitsRevAux (fuel : Nat) :
    ∀ n : Nat, n < fuel → decVal (decDigitsRevAux fuel n) = n := by
  induction fuel with
  | zero => intro n h; omega
  | succ fuel ih =>
    intro n h
    by_cases h10 : n < 10
    · simp [decDigitsRevAux, h10, decVal]
    · have hn : 0 < n := by omega
      have hdiv : n / 10 < n := Nat.div_lt_self hn (by omega)
      have hfuel : n / 10 < fuel := by omega
      simp only [decDigitsRevAux, if_neg h10, decVal, List.foldr]
      have := ih (n / 10) hfuel
      simp only [decVal] at this
      rw [this]
      omega

theorem decVal_decDigitsRev (n : Nat) : decVal (decDigitsRev n) = n :=
  decVal_decDigitsRevAux (n + 1) n (Nat.lt_succ_self n)

theorem decDigitsRev_injective : Function.Injective decDigitsRev := by
  intro a b h
  have := decVal_decDigitsRev a
  rw [h, decVal_decDigitsRev] at this
  omega

theorem decDigitsRevAux_lt_ten (fuel : Nat) :
    ∀ n : Nat, ∀ d ∈ decDigitsRevAux fuel n, d < 10 := by
  induction fuel with
  | zero => intro n d hd; simp [decDigitsRevAux] at hd
  | succ fuel ih =>
    intro n d hd
    by_cases h10 : n < 10
    · simp [decDigitsRevAux, h10] at hd; omega
    · simp only [decDigitsRevAux, if_neg h10, List.mem_cons] at hd
      rcases hd with h | h
      · omega
      · exact ih (n / 10) d h

theorem digitCh_inj_on_digits {a b : Nat} (ha : a < 10) (hb : b < 10)
    (h : digitCh a = digitCh b) : a = b := by
  have h48a : 48 + a < 0xD800 := by omega
  have h48b : 48 + b < 0xD800 := by omega
  have hva : Nat.isValidChar (48 + a) := Or.inl h48a
  have hvb : Nat.isValidChar (48 + b) := Or.inl h48b
  have ha' : (digitCh a).toNat = 48 + a := by
    simp only [digitCh, Char.ofNat]
    rw [dif_pos hva]
    rfl
  have hb' : (digitCh b).toNat = 48 + b := by
    simp only [digitCh, Char.ofNat]
    rw [dif_pos hvb]
    rfl
  have : (digitCh a).toNat = (digitCh b).toNat := by rw [h]
  omega

theorem map_digitCh_inj : ∀ (l₁ l₂ : List Nat),
    (∀ d ∈ l₁, d < 10) → (∀ d ∈ l₂, d < 10) →
    l₁.map digitCh = l₂.map digitCh → l₁ = l₂ := by
  intro l₁
  induction l₁ with
  | nil => intro l₂ _ _ h; cases l₂ <;> simp_all
  | cons x xs ih =>
    intro l₂ h₁ h₂ h
    cases l₂ with
    | nil => simp at h
    | cons y ys =>
      simp only [List.map_cons, List.cons.injEq] at h
      have hx : x = y :=
        digitCh_inj_on_digits (h₁ x (by simp)) (h₂ y (by simp)) h.1
      have hxs : xs = ys := by
        refine ih ys (fun d hd => h₁ d (by simp [hd]))
          (fun d hd => h₂ d (by simp [hd])) h.2
      rw [hx, hxs]

theorem jsNatToString_injective : Function.Injective jsNatToString := by
  intro a b h
  apply decDigitsRev_injective
  have hlist : (decDigitsRev a).reverse.map digitCh
      = (decDigitsRev b).reverse.map digitCh := by
    have := congrArg String.data h
    simpa [jsNatToString] using this
  have hda : ∀ d ∈ (decDigitsRev a).reverse, d < 10 := by
    intro d hd
    exact decDigitsRevAux_lt_ten (a + 1) a d (List.mem_reverse.mp hd)
  have hdb : ∀ d ∈ (decDigitsRev b).reverse, d < 10 := by
    intro d hd
    exact decDigitsRevAux_lt_ten (b + 1) b d (List.mem_reverse.mp hd)
  have hrev := map_digitCh_inj _ _ hda hdb hlist
  exact List.reverse_injective hrev

theorem isPrefixOfB_iff (p : List Char) :
    ∀ l : List Char, isPrefixOfB p l = true ↔ ∃ t, l = p ++ t := by
  induction p with
  | nil => intro l; simp [isPrefixOfB]
  | cons a as ih =>
    intro l
    cases l with
    | nil =>
      simp only [isPrefixOfB]
      constructor
      · intro h; cases h
      · rintro ⟨t, ht⟩; cases ht
    | cons b bs =>
      simp only [isPrefixOfB, Bool.and_eq_true, beq_iff_eq]
      constructor
      · rintro ⟨rfl, h⟩
        obtain ⟨t, rfl⟩ := (ih bs).mp h
        exact ⟨t, rfl⟩
      · rintro ⟨t, ht⟩
        injection ht with h1 h2
        exact ⟨h1.symm ▸ rfl, (ih bs).mpr ⟨t, h2⟩⟩

theorem containsSub_nil_iff (n : List Char) :
    containsSub n [] = true ↔ n = [] := by
  cases n with
  | nil => simp [containsSub, firstMatchIdx, isPrefixOfB]
  | cons a as => simp [containsSub, firstMatchIdx, isPrefixOfB]

theorem containsSub_cons (n : List Char) (c : Char) (rest : List Char) :
    containsSub n (c :: rest)
      = (isPrefixOfB n (c :: rest) || containsSub n rest) := by
  by_cases h : isPrefixOfB n (c :: rest) = true
  · simp [containsSub, firstMatchIdx, h]
  · simp only [Bool.not_eq_true] at h
    simp [containsSub, firstMatchIdx, h, Option.isSome_map]

theorem containsSub_iff (n : List Char) :
    ∀ h : List Char, containsSub n h = true ↔ ∃ pre t, h = pre ++ (n ++ t) := by
  intro h
  induction h with
  | nil =>
    rw [containsSub_nil_iff]
    constructor
    · rintro rfl; exact ⟨[], [], rfl⟩
    · rintro ⟨pre, t, ht⟩
      have h0 : pre ++ (n ++ t) = [] := ht.symm
      rw [List.append_eq_nil, List.append_eq_nil] at h0
      exact h0.2.1
  | cons c rest ih =>
    rw [containsSub_cons, Bool.or_eq_true, isPrefixOfB_iff, ih]
    constructor
    · rintro (⟨t, ht⟩ | ⟨pre, t, ht⟩)
      · exact ⟨[], t, ht⟩
      · exact ⟨c :: pre, t, by simp [ht]⟩
    · rintro ⟨pre, t, ht⟩
      cases pre with
      | nil => exact Or.inl ⟨t, by simpa using ht⟩
      | cons x xs =>
        injection ht with h1 h2
        exact Or.inr ⟨xs, t, h2⟩

theorem containsSub_append_mono (n l m : List Char)
    (h : containsSub n l = true) : containsSub n (l ++ m) = true := by
  rw [containsSub_iff] at h ⊢
  obtain ⟨pre, t, rfl⟩ := h
  exact ⟨pre, t ++ m, by simp⟩

theorem takeWhile_append_stop (q : Char → Bool) (c : Char) (hc : q c = false) :
    ∀ l m : List Char, (l ++ c :: m).takeWhile q = l.takeWhile q := by
  intro l m
  induction l with
  | nil => simp [List.takeWhile, hc]
  | cons x xs ih =>
    cases hq : q x <;> simp [List.takeWhile_cons, hq, ih]

theorem isPrefixOfB_across_sep (sep : Char) (needle : List Char)
    (hsep : sep ∉ needle) :
    ∀ l m : List Char, isPrefixOfB needle (l ++ sep :: m) = isPrefixOfB needle l := by
  induction needle with
  | nil => intro l m; simp [isPrefixOfB]
  | cons n ns ih =>
    intro l m
    cases l with
    | nil =>
      have hn : n ≠ sep := fun h => hsep (h ▸ List.mem_cons_self n ns)
      simp only [List.nil_append, isPrefixOfB]
      rw [show (n == sep) = false from beq_eq_false_iff_ne.mpr hn]
      simp
    | cons c cs =>
      simp only [List.cons_append, isPrefixOfB, List.append_eq]
      rw [ih (fun h => hsep (List.mem_cons_of_mem n h)) cs m]

theorem isPrefixOfB_mem (needle : List Char) :
    ∀ l : List Char, isPrefixOfB needle l = true → ∀ x ∈ needle, x ∈ l := by
  induction needle with
  | nil => intro l _ x hx; cases hx
  | cons n ns ih =>
    intro l h x hx
    cases l with
    | nil => cases h
    | cons c cs =>
      simp only [isPrefixOfB, Bool.and_eq_true, beq_iff_eq] at h
      rcases List.mem_cons.mp hx with rfl | hx'
      · exact h.1 ▸ List.mem_cons_self c cs
      · exact List.mem_cons_of_mem c (ih cs h.2 x hx')

theorem containsSub_all_digits (needle : List Char) (d : Char)
    (hd : d ∈ needle) (hnd : d.isDigit = false) :
    ∀ l : List Char, (∀ x ∈ l, x.isDigit = true) → containsSub needle l = false := by
  intro l
  induction l with
  | nil =>
    intro _
    cases hn : containsSub needle []
    · rfl
    · exfalso
      have := (containsSub_nil_iff needle).mp hn
      rw [this] at hd
      cases hd
  | cons c cs ih =>
    intro hall
    rw [containsSub_cons]
    have h1 : isPrefixOfB needle (c :: cs) = false := by
      cases hp : isPrefixOfB needle (c :: cs)
      · rfl
      · exfalso
        have := isPrefixOfB_mem needle (c :: cs) hp d hd
        rw [hall d this] at hnd
        cases hnd
    have h2 : containsSub needle cs = false :=
      ih (fun x hx => hall x (List.mem_cons_of_mem c hx))
    rw [h1, h2]
    rfl

theorem containsSub_across_sep (sep : Char) (needle : List Char) (pdata : List Char)
    (hsep : sep ∉ needle) (d : Char) (hd : d ∈ needle) (hnd : d.isDigit = false)
    (hsepd : sep.isDigit = false)
    (hp : ∀ x ∈ pdata, x.isDigit = true) :
    ∀ l : List Char, containsSub needle (l ++ sep :: pdata) = containsSub needle l := by
  intro l
  induction l with
  | nil =>
    simp only [List.nil_append]
    rw [containsSub_cons]
    have hne : needle ≠ [] := fun h => by rw [h] at hd; cases hd
    have h1 : isPrefixOfB needle (sep :: pdata) = false := by
      cases needle with
      | nil => exact absurd rfl hne
      | cons n ns =>
        have hn : n ≠ sep := fun h => hsep (h ▸ List.mem_cons_self n ns)
        simp only [isPrefixOfB]
        rw [show (n == sep) = false from beq_eq_false_iff_ne.mpr hn]
        rfl
    have h2 : containsSub needle pdata = false :=
      containsSub_all_digits needle d hd hnd pdata hp
    rw [h1, h2]
    have h3 : containsSub needle [] = false := by
      cases hn : containsSub needle []
      · rfl
      · exact absurd ((containsSub_nil_iff needle).mp hn) hne
    rw [h3]
    rfl
  | cons c cs ih =>
    have hcons : (c :: cs) ++ sep :: pdata = c :: (cs ++ sep :: pdata) := rfl
    rw [hcons, containsSub_cons, containsSub_cons, ih]
    have : isPrefixOfB needle (c :: (cs ++ sep :: pdata))
        = isPrefixOfB needle (c :: cs) := by
      have := isPrefixOfB_across_sep sep needle hsep (c :: cs) pdata
      simpa using this
    rw [this]

/-- C10: for every hostname, appending a `:port` suffix made of digits
changes neither the AWS-pattern recognition (`isAwsRequest`, which strips
the port) nor the service identification (`identifyService`, whose
substring probes cannot match across or inside the digits). -/
theorem classification_port_stripping (h p : String)
    (hp : ∀ x ∈ p.data, x.isDigit = true) :
    isAwsRequest (h ++ ":" ++ p) = isAwsRequest h
    ∧ identifyService (h ++ ":" ++ p) = identifyService h := by
  have hcolon : (":" : String).data = [':'] := rfl
  have hdata : (h ++ ":" ++ p).data = h.data ++ ':' :: p.data := by
    rw [String.data_append, String.data_append, hcolon]
    simp [List.append_assoc]
  have hclean : splitHead ':' (h ++ ":" ++ p) = splitHead ':' h := by
    simp only [splitHead, hdata]
    rw [takeWhile_append_stop _ ':' (by simp)]
  have hinc : ∀ n : String, ':' ∉ n.data → (∃ d ∈ n.data, d.isDigit = false) →
      jsIncludes (h ++ ":" ++ p) n = jsIncludes h n := by
    rintro n hsep ⟨d, hd, hnd⟩
    simp only [jsIncludes, hdata]
    exact containsSub_across_sep ':' n.data p.data hsep d hd hnd (by decide) hp h.data
  constructor
  · simp only [isAwsRequest]
    rw [hclean]
  · simp only [identifyService]
    rw [hinc "s3" (by decide) ⟨'s', by decide, by decide⟩,
      hinc "dynamodb" (by decide) ⟨'d', by decide, by decide⟩,
      hinc "lambda" (by decide) ⟨'l', by decide, by decide⟩,
      hinc "sqs" (by decide) ⟨'q', by decide, by decide⟩,
      hinc "sns" (by decide) ⟨'n', by decide, by decide⟩]

/-- Witness for C10 at `"s3.example.com"` with port `"443"`: the suffixed
and bare hostnames classify identically. -/
theorem classification_port_stripping_witness :
    isAwsRequest ("s3.example.com" ++ ":" ++ "443") = isAwsRequest "s3.example.com"
    ∧ identifyService ("s3.example.com" ++ ":" ++ "443")
        = identifyService "s3.example.com" :=
  classification_port_stripping "s3.example.com" "443" (by decide)

/-- C1: for every S3 service config in which bucket `"b"` has an object
under key `"k"`, the plain-path S3 generator answers a GET for `/b/k`
with status 200, the object's content as body, and `Content-Type` from
the object metadata (defaulting to `application/octet-stream`); a GET for
`/b/missing`, when no such object is configured, yields status 404. -/
theorem s3_get_roundtrip (serviceConfig : S3Config) (obj : S3Object)
    (now now' : Nat) (op op' : String)
    (hfound : lookupS3Object serviceConfig "b" "k" = some obj)
    (hmissing : lookupS3Object serviceConfig "b" "missing" = none) :
    generateS3Response op serviceConfig demoGetReq now =
      { statusCode := 200
        headers :=
          [("Content-Type", obj.contentType.getD "application/octet-stream"),
           ("ETag", "\"" ++ jsNatToString now ++ "\""),
           ("Last-Modified", dateToUTCString now)]
        body := .text obj.content }
    ∧ (generateS3Response op' serviceConfig demoGetMissingReq now').statusCode = 404 := by
  constructor
  · have hred : generateS3Response op serviceConfig demoGetReq now =
        match lookupS3Object serviceConfig "b" "k" with
        | some objectConfig =>
          { statusCode := 200
            headers :=
              [("Content-Type", objectConfig.contentType.getD "application/octet-stream"),
               ("ETag", "\"" ++ jsNatToString now ++ "\""),
               ("Last-Modified", dateToUTCString now)]
            body := .text objectConfig.content }
        | none => s3NotFound := rfl
    rw [hred, hfound]
  · have hred : generateS3Response op' serviceConfig demoGetMissingReq now' =
        match lookupS3Object serviceConfig "b" "missing" with
        | some objectConfig =>
          { statusCode := 200
            headers :=
              [("Content-Type", objectConfig.contentType.getD "application/octet-stream"),
               ("ETag", "\"" ++ jsNatToString now' ++ "\""),
               ("Last-Modified", dateToUTCString now')]
            body := .text objectConfig.content }
        | none => s3NotFound := rfl
    rw [hred, hmissing]
    rfl

/-- Witness for C1 on the one-object catalog `demoS3Config` at clock 0. -/
theorem s3_get_roundtrip_witness :
    generateS3Response "GET_b" demoS3Config demoGetReq 0 =
      { statusCode := 200
        headers :=
          [("Content-Type", "application/octet-stream"),
           ("ETag", "\"0\""),
           ("Last-Modified", "UTC 0")]
        body := .text "X" }
    ∧ (generateS3Response "GET_b" demoS3Config demoGetMissingReq 0).statusCode = 404 :=
  s3_get_roundtrip demoS3Config { content := "X", contentType := none }
    0 0 "GET_b" "GET_b" rfl rfl

/-- C5: for every catalog and every PUT whose path has a non-empty bucket
and key, the S3 generator acknowledges with status 200, an empty body and
a clock-derived ETag; being a pure function it leaves the catalog
untouched, so a GET for the same previously-unconfigured key against the
same catalog still yields 404. -/
theorem s3_put_non_persistence (url : String) (serviceConfig : S3Config)
    (now now' : Nat) (op op' : String)
    (hb : s3ReqBucket url ≠ "") (hk : s3ReqKey url ≠ "")
    (hmissing : lookupS3Object serviceConfig (s3ReqBucket url) (s3ReqKey url) = none) :
    generateS3Response op serviceConfig { method := "PUT", url := url, xAmzTarget := none } now =
      { statusCode := 200
        headers := [("ETag", "\"" ++ jsNatToString now ++ "\"")]
        body := .text "" }
    ∧ (generateS3Response op' serviceConfig
        { method := "GET", url := url, xAmzTarget := none } now').statusCode = 404 := by
  constructor
  · have hred : generateS3Response op serviceConfig
          { method := "PUT", url := url, xAmzTarget := none } now =
        (if "PUT" = "PUT" ∧ s3ReqBucket url ≠ "" ∧ s3ReqKey url ≠ "" then
          ({ statusCode := 200
             headers := [("ETag", "\"" ++ jsNatToString now ++ "\"")]
             body := .text "" } : MockResponse)
         else s3NotFound) := rfl
    rw [hred, if_pos ⟨rfl, hb, hk⟩]
  · have hred : generateS3Response op' serviceConfig
          { method := "GET", url := url, xAmzTarget := none } now' =
        match (if "GET" = "GET" ∧ s3ReqBucket url ≠ "" ∧ s3ReqKey url ≠ "" then
            lookupS3Object serviceConfig (s3ReqBucket url) (s3ReqKey url)
          else none) with
        | some objectConfig =>
          { statusCode := 200
            headers :=
              [("Content-Type", objectConfig.contentType.getD "application/octet-stream"),
               ("ETag", "\"" ++ jsNatToString now' ++ "\""),
               ("Last-Modified", dateToUTCString now')]
            body := .text objectConfig.content }
        | none => s3NotFound := rfl
    rw [hred, if_pos ⟨rfl, hb, hk⟩, hmissing]
    rfl

/-- Witness for C5: a PUT to `/b/new-key` on `demoS3Config` at clock 7,
then a GET for the same key at clock 8. -/
theorem s3_put_non_persistence_witness :
    generateS3Response "PUT_b" demoS3Config demoPutReq 7 =
      { statusCode := 200, headers := [("ETag", "\"7\"")], body := .text "" }
    ∧ (generateS3Response "GET_b" demoS3Config demoGetNewKeyReq 8).statusCode = 404 :=
  s3_put_non_persistence "/b/new-key" demoS3Config 7 8 "PUT_b" "GET_b"
    (by decide) (by decide) rfl

theorem string_data_ext {a b : String} (h : a.data = b.data) : a = b := by
  cases a; cases b; exact congrArg String.mk h

theorem quoted_jsNatToString_inj (t₁ t₂ : Nat)
    (h : "\"" ++ jsNatToString t₁ ++ "\"" = "\"" ++ jsNatToString t₂ ++ "\"") :
    t₁ = t₂ := by
  apply jsNatToString_injective
  have hd := congrArg String.data h
  rw [String.data_append, String.data_append, String.data_append,
    String.data_append] at hd
  have hq : ("\"" : String).data = ['"'] := rfl
  rw [hq] at hd
  simp only [List.cons_append, List.nil_append, List.cons.injEq, true_and] at hd
  exact string_data_ext (List.append_cancel_right hd)

/-- C7: two GETs of the same configured S3 object at distinct wall-clock
readings return different `ETag` header values (the tag is derived from
`Date.now()`, not from the content) while the body is identical both
times. -/
theorem s3_etag_instability (url : String) (serviceConfig : S3Config)
    (obj : S3Object) (op op' : String) (t₁ t₂ : Nat)
    (hne : t₁ ≠ t₂)
    (hb : s3ReqBucket url ≠ "") (hk : s3ReqKey url ≠ "")
    (hfound : lookupS3Object serviceConfig (s3ReqBucket url) (s3ReqKey url) = some obj) :
    (generateS3Response op serviceConfig
        { method := "GET", url := url, xAmzTarget := none } t₁).headers.lookup "ETag"
      ≠ (generateS3Response op' serviceConfig
        { method := "GET", url := url, xAmzTarget := none } t₂).headers.lookup "ETag"
    ∧ (generateS3Response op serviceConfig
        { method := "GET", url := url, xAmzTarget := none } t₁).body
      = (generateS3Response op' serviceConfig
        { method := "GET", url := url, xAmzTarget := none } t₂).body := by
  have hred : ∀ (o : String) (t : Nat), generateS3Response o serviceConfig
        { method := "GET", url := url, xAmzTarget := none } t =
      match (if "GET" = "GET" ∧ s3ReqBucket url ≠ "" ∧ s3ReqKey url ≠ "" then
          lookupS3Object serviceConfig (s3ReqBucket url) (s3ReqKey url)
        else none) with
      | some objectConfig =>
        { statusCode := 200
          headers :=
            [("Content-Type", objectConfig.contentType.getD "application/octet-stream"),
             ("ETag", "\"" ++ jsNatToString t ++ "\""),
             ("Last-Modified", dateToUTCString t)]
          body := .text objectConfig.content }
      | none => s3NotFound := fun o t => rfl
  rw [hred op t₁, hred op' t₂, if_pos ⟨rfl, hb, hk⟩, hfound]
  constructor
  · simp only [List.lookup]
    intro h
    have h1 : ("ETag" == "Content-Type") = false := by decide
    rw [h1] at h
    have h2 : ("ETag" == "ETag") = true := by decide
    rw [h2] at h
    simp only [Option.some.injEq] at h
    exact hne (quoted_jsNatToString_inj t₁ t₂ h)
  · rfl

/-- Witness for C7: clocks 1 and 2 on `demoS3Config`, object `/b/k`. -/
theorem s3_etag_instability_witness :
    (generateS3Response "GET_b" demoS3Config demoGetReq 1).headers.lookup "ETag"
      ≠ (generateS3Response "GET_b" demoS3Config demoGetReq 2).headers.lookup "ETag"
    ∧ (generateS3Response "GET_b" demoS3Config demoGetReq 1).body
      = (generateS3Response "GET_b" demoS3Config demoGetReq 2).body :=
  s3_etag_instability "/b/k" demoS3Config { content := "X", contentType := none }
    "GET_b" "GET_b" 1 2 (by decide) (by decide) (by decide) rfl

/-- C6: the DynamoDB generator answers an operation containing `GetItem`
with 200 and the first configured item of the hardcoded `Users` table (an
empty object when none is configured), an operation containing `PutItem`
(and not `GetItem`) with 200 and an empty object body, and every other
operation — `"Query"` among them — with status 400. -/
theorem dynamodb_dispatch (operation : String) (serviceConfig : DynamoConfig)
    (req : Req) :
    (jsIncludes operation "GetItem" = true →
      generateDynamoDBResponse operation serviceConfig req =
        { statusCode := 200, headers := [],
          body := .json (Json.obj [("Item",
            match serviceConfig.tables.lookup "Users" with
            | some table => table.items.headD (Json.obj [])
            | none => Json.obj [])]) })
    ∧ (jsIncludes operation "GetItem" = false →
        jsIncludes operation "PutItem" = true →
      generateDynamoDBResponse operation serviceConfig req =
        { statusCode := 200, headers := [], body := .json (Json.obj []) })
    ∧ (jsIncludes operation "GetItem" = false →
        jsIncludes operation "PutItem" = false →
      generateDynamoDBResponse operation serviceConfig req =
        { statusCode := 400, headers := [],
          body := .json (Json.obj [("error", Json.str "Unsupported operation")]) })
    ∧ (generateDynamoDBResponse "Query" serviceConfig req).statusCode = 400 := by
  refine ⟨?_, ?_, ?_, ?_⟩
  · intro h
    simp [generateDynamoDBResponse, firstUsersItem, h]
  · intro h1 h2
    simp [generateDynamoDBResponse, h1, h2]
  · intro h1 h2
    simp [generateDynamoDBResponse, h1, h2]
  · rfl

/-- Witness for C6 on `demoDynamoConfig`: `GetItem` returns the one
configured `Users` item, `Query` returns 400. -/
theorem dynamodb_dispatch_witness :
    generateDynamoDBResponse "GetItem" demoDynamoConfig demoGetReq =
      { statusCode := 200, headers := [],
        body := .json (Json.obj [("Item", Json.obj [("id", Json.str "user1")])]) }
    ∧ (generateDynamoDBResponse "Query" demoDynamoConfig demoGetReq).statusCode = 400 :=
  ⟨(dynamodb_dispatch "GetItem" demoDynamoConfig demoGetReq).1 rfl,
   (dynamodb_dispatch "Query" demoDynamoConfig demoGetReq).2.2.2⟩

theorem isPrefixOfB_append_mono (p l m : List Char)
    (h : isPrefixOfB p l = true) : isPrefixOfB p (l ++ m) = true := by
  rw [isPrefixOfB_iff] at h ⊢
  obtain ⟨t, rfl⟩ := h
  exact ⟨t ++ m, by simp⟩

theorem genMock_eq_branches (hostname requestLine : String) :
    ∃ body : String,
      generateMockHttpResponse hostname requestLine =
        "HTTP/1.1 200 OK\r\nContent-Type: application/x-amz-json-1.0\r\nContent-Length: "
          ++ jsNatToString body.length ++ "\r\n\r\n" ++ body
      ∧ utf8ByteLength body = body.length := by
  by_cases h1 : (jsIncludes hostname "s3" && jsIncludes requestLine "GET") = true
  · refine ⟨"\x7b\"message\":\"Mock S3 GetObject response\"\x7d", ?_, by decide⟩
    simp only [generateMockHttpResponse]
    rw [if_pos h1]
  · by_cases h2 : (jsIncludes hostname "dynamodb" && jsIncludes requestLine "POST") = true
    · refine ⟨"\x7b\"Item\":\x7b\"id\":\x7b\"S\":\"user1\"\x7d,\"name\":\x7b\"S\":\"Mock User\"\x7d\x7d\x7d", ?_, by decide⟩
      simp only [generateMockHttpResponse]
      rw [if_neg h1, if_pos h2]
    · by_cases h3 : (jsIncludes hostname "lambda" && jsIncludes requestLine "POST") = true
      · refine ⟨"\x7b\"Payload\":\"" ++ base64Encode (strUtf8Bytes lambdaInnerJson) ++ "\"\x7d",
          ?_, by decide⟩
        simp only [generateMockHttpResponse]
        rw [if_neg h1, if_neg h2, if_pos h3]
      · refine ⟨"\x7b\"error\":\"Service not mocked\"\x7d", ?_, by decide⟩
        simp only [generateMockHttpResponse]
        rw [if_neg h1, if_neg h2, if_neg h3]

/-- C3: every response synthesized for an intercepted tunnel is the raw
text `HTTP/1.1 <code> <reason>\r\n`, header lines, a blank line and the
body, and its `Content-Length` value is exactly the UTF-8 byte length of
the body. -/
theorem tunnel_wire_format (hostname requestLine : String) :
    ∃ body : String,
      generateMockHttpResponse hostname requestLine =
        "HTTP/1.1 200 OK\r\nContent-Type: application/x-amz-json-1.0\r\nContent-Length: "
          ++ jsNatToString (utf8ByteLength body) ++ "\r\n\r\n" ++ body := by
  obtain ⟨body, heq, hlen⟩ := genMock_eq_branches hostname requestLine
  exact ⟨body, by rw [heq, hlen]⟩

/-- C4: the intercepted-tunnel response synthesizer never consults the
catalog — the same (hostname, requestLine) yields an identical response
under any two catalogs — its status line is always `HTTP/1.1 200 OK`, and
an unmatched service still receives status 200 with the
`Service not mocked` error body rather than a 4xx/5xx. -/
theorem tunnel_catalog_independence (c₁ c₂ : Option MockConfig)
    (hostname requestLine : String) :
    tunnelResponseWithCatalog c₁ hostname requestLine
      = tunnelResponseWithCatalog c₂ hostname requestLine
    ∧ strStartsWith (generateMockHttpResponse hostname requestLine)
        "HTTP/1.1 200 OK\r\n" = true
    ∧ ((jsIncludes hostname "s3" && jsIncludes requestLine "GET") = false →
       (jsIncludes hostname "dynamodb" && jsIncludes requestLine "POST") = false →
       (jsIncludes hostname "lambda" && jsIncludes requestLine "POST") = false →
       generateMockHttpResponse hostname requestLine =
         "HTTP/1.1 200 OK\r\nContent-Type: application/x-amz-json-1.0\r\nContent-Length: 30\r\n\r\n\x7b\"error\":\"Service not mocked\"\x7d") := by
  refine ⟨rfl, ?_, ?_⟩
  · obtain ⟨body, heq, -⟩ := genMock_eq_branches hostname requestLine
    rw [heq]
    simp only [strStartsWith, String.data_append]
    apply isPrefixOfB_append_mono
    apply isPrefixOfB_append_mono
    apply isPrefixOfB_append_mono
    decide
  · intro h1 h2 h3
    simp only [generateMockHttpResponse]
    rw [if_neg (by simp [h1]), if_neg (by simp [h2]), if_neg (by simp [h3])]
    decide

/-- Witness for C4 at an unmatched service (`sns`) under two catalogs. -/
theorem tunnel_catalog_independence_witness :
    tunnelResponseWithCatalog none "sns.amazonaws.com" "GET / HTTP/1.1"
      = tunnelResponseWithCatalog
          (some { version := "1.0", services := [] }) "sns.amazonaws.com" "GET / HTTP/1.1"
    ∧ strStartsWith (generateMockHttpResponse "sns.amazonaws.com" "GET / HTTP/1.1")
        "HTTP/1.1 200 OK\r\n" = true
    ∧ generateMockHttpResponse "sns.amazonaws.com" "GET / HTTP/1.1" =
        "HTTP/1.1 200 OK\r\nContent-Type: application/x-amz-json-1.0\r\nContent-Length: 30\r\n\r\n\x7b\"error\":\"Service not mocked\"\x7d" := by
  obtain ⟨a, b, c⟩ := tunnel_catalog_independence none
    (some { version := "1.0", services := [] }) "sns.amazonaws.com" "GET / HTTP/1.1"
  exact ⟨a, b, c rfl rfl rfl⟩

theorem stepTunnel_not_expecting (hostname : String) (buf : List Char)
    (chunk : List Char) :
    stepTunnel hostname { buffer := buf, expectingRequest := false } chunk
      = ({ buffer := buf, expectingRequest := false }, []) := by
  simp [stepTunnel]

theorem runTunnel_not_expecting (hostname : String) (buf : List Char) :
    ∀ chunks : List (List Char),
      runTunnel hostname { buffer := buf, expectingRequest := false } chunks = [] := by
  intro chunks
  induction chunks with
  | nil => rfl
  | cons c cs ih =>
    simp only [runTunnel, stepTunnel_not_expecting]
    simpa using ih

theorem runTunnel_length_le_one (hostname : String) :
    ∀ (chunks : List (List Char)) (buf : List Char),
      (runTunnel hostname { buffer := buf, expectingRequest := true } chunks).length ≤ 1 := by
  intro chunks
  induction chunks with
  | nil => intro buf; simp [runTunnel]
  | cons c cs ih =>
    intro buf
    simp only [runTunnel]
    cases hidx : firstMatchIdx crlfcrlf (buf ++ c) with
    | some i =>
      simp [stepTunnel, hidx, runTunnel_not_expecting]
    | none =>
      simp only [stepTunnel, if_true, hidx]
      simpa using ih (buf ++ c)

theorem runTunnel_ne_nil_iff (hostname : String) :
    ∀ (chunks : List (List Char)) (buf : List Char),
      runTunnel hostname { buffer := buf, expectingRequest := true } chunks ≠ [] ↔
        chunks ≠ [] ∧ containsSub crlfcrlf (buf ++ chunks.flatten) = true := by
  intro chunks
  induction chunks with
  | nil => intro buf; simp [runTunnel]
  | cons c cs ih =>
    intro buf
    simp only [runTunnel]
    cases hidx : firstMatchIdx crlfcrlf (buf ++ c) with
    | some i =>
      constructor
      · intro _
        refine ⟨List.cons_ne_nil c cs, ?_⟩
        have hc : containsSub crlfcrlf (buf ++ c) = true := by
          simp [containsSub, hidx]
        have := containsSub_append_mono crlfcrlf (buf ++ c) cs.flatten hc
        simpa [List.append_assoc] using this
      · intro _
        simp [stepTunnel, hidx]
    | none =>
      simp only [stepTunnel, if_true, hidx]
      have hstep : runTunnel hostname { buffer := buf ++ c, expectingRequest := true } cs ≠ [] ↔
          cs ≠ [] ∧ containsSub crlfcrlf ((buf ++ c) ++ cs.flatten) = true := ih (buf ++ c)
      constructor
      · intro hne
        have h := hstep.mp (by simpa using hne)
        exact ⟨List.cons_ne_nil c cs, by simpa [List.append_assoc] using h.2⟩
      · rintro ⟨-, hcontains⟩
        have hcs : cs ≠ [] := by
          intro hnil
          rw [hnil] at hcontains
          simp only [List.flatten_cons, List.flatten_nil, List.append_nil] at hcontains
          rw [show containsSub crlfcrlf (buf ++ c) = (firstMatchIdx crlfcrlf (buf ++ c)).isSome from rfl,
            hidx] at hcontains
          cases hcontains
        have := hstep.mpr ⟨hcs, by simpa [List.append_assoc] using hcontains⟩
        simpa using this

/-- C2: over any sequence of data chunks arriving on an intercepted
tunnel, at most one synthesized response is written; exactly one is
written precisely when some chunk arrives and the accumulated buffer
comes to contain the `\r\n\r\n` header terminator; and once the response
has been written (`expectingRequest` is false) every further chunk leaves
the state untouched and writes nothing. -/
theorem tunnel_single_response (hostname : String) (head : List Char)
    (chunks : List (List Char)) :
    (runTunnel hostname (initTunnelState head) chunks).length ≤ 1
    ∧ ((runTunnel hostname (initTunnelState head) chunks).length = 1 ↔
        chunks ≠ [] ∧ containsSub crlfcrlf (head ++ chunks.flatten) = true)
    ∧ (∀ buf chunk, stepTunnel hostname { buffer := buf, expectingRequest := false } chunk
        = ({ buffer := buf, expectingRequest := false }, []))
    ∧ (∀ buf chunks₂,
        runTunnel hostname { buffer := buf, expectingRequest := false } chunks₂ = []) := by
  have hle := runTunnel_length_le_one hostname chunks head
  have hne := runTunnel_ne_nil_iff hostname chunks head
  refine ⟨hle, ?_, fun buf chunk => stepTunnel_not_expecting hostname buf chunk,
    fun buf chunks₂ => runTunnel_not_expecting hostname buf chunks₂⟩
  rw [← hne]
  unfold initTunnelState at hle ⊢
  constructor
  · intro h1
    intro hnil
    rw [hnil] at h1
    simp at h1
  · intro hnonnil
    have : (runTunnel hostname { buffer := head, expectingRequest := true } chunks).length ≠ 0 := by
      intro h0
      exact hnonnil (List.length_eq_zero.mp h0)
    omega

/-- Witness for C2: a tunnel to `s3.amazonaws.com` receiving one chunk
holding a full request head writes exactly one response; from a
responded state, a further chunk writes nothing. -/
theorem tunnel_single_response_witness :
    (runTunnel "s3.amazonaws.com" (initTunnelState [])
      [("GET /b/k HTTP/1.1\r\nHost: s3.amazonaws.com\r\n\r\n").data]).length = 1
    ∧ runTunnel "s3.amazonaws.com"
        { buffer := ("x").data, expectingRequest := false } [("more").data] = [] :=
  ⟨(tunnel_single_response "s3.amazonaws.com" []
      [("GET /b/k HTTP/1.1\r\nHost: s3.amazonaws.com\r\n\r\n").data]).2.1.mpr
      ⟨by decide, by decide⟩,
   (tunnel_single_response "s3.amazonaws.com" [] []).2.2.2 ("x").data [("more").data]⟩

/-- C8 counterexample: for header value `"Service."` the final
dot-segment is empty (`""`), but the code returns `"unknown"`
(`target.split('.').pop() || 'unknown'`), so the extraction differs from
the spec's stated rule at this request. -/
theorem extractOperation_counterexample :
    extractOperation { method := "POST", url := "/", xAmzTarget := some "Service." }
        = "unknown"
    ∧ specExtractOperation { method := "POST", url := "/", xAmzTarget := some "Service." }
        = ""
    ∧ extractOperation { method := "POST", url := "/", xAmzTarget := some "Service." }
        ≠ specExtractOperation
            { method := "POST", url := "/", xAmzTarget := some "Service." } := by
  refine ⟨rfl, rfl, ?_⟩
  decide

/-- C8 amended: when the operation header is present and non-empty, the
extracted operation is the final dot-segment of its value except that an
empty final segment becomes `"unknown"`; when the header is absent or
empty, it is `{method}_{segment}` with the part of the URL between the
first and second `/`, `"unknown"` substituted when that is empty or
missing. -/
theorem extractOperation_amended (req : Req) :
    (∀ target, req.xAmzTarget = some target → target ≠ "" →
      extractOperation req =
        (if (jsSplit '.' target).getLastD "" = "" then "unknown"
         else (jsSplit '.' target).getLastD ""))
    ∧ (req.xAmzTarget = none ∨ req.xAmzTarget = some "" →
      extractOperation req =
        (if (jsSplit '/' req.url).getD 1 "" = "" then req.method ++ "_" ++ "unknown"
         else req.method ++ "_" ++ (jsSplit '/' req.url).getD 1 "")) := by
  obtain ⟨m, u, tgt⟩ := req
  constructor
  · rintro target rfl hne
    simp [extractOperation, hne]
  · rintro (rfl | rfl)
    · simp only [extractOperation, extractOperationFallback]
      split <;> simp
    · have hred : extractOperation { method := m, url := u, xAmzTarget := some "" }
          = extractOperationFallback { method := m, url := u, xAmzTarget := some "" } := rfl
      rw [hred]
      simp only [extractOperationFallback]
      split <;> simp

/-- Witness for the amended C8: a dotted target extracts its final
segment; an absent header falls back to `{method}_{first URL field}`. -/
theorem extractOperation_amended_witness :
    extractOperation
        { method := "POST", url := "/",
          xAmzTarget := some "DynamoDB_20120810.GetItem" } = "GetItem"
    ∧ extractOperation { method := "GET", url := "/b/k", xAmzTarget := none }
        = "GET_b" := by
  constructor
  · have h := (extractOperation_amended
      { method := "POST", url := "/", xAmzTarget := some "DynamoDB_20120810.GetItem" }).1
      "DynamoDB_20120810.GetItem" rfl (by decide)
    rw [h]
    decide
  · have h := (extractOperation_amended
      { method := "GET", url := "/b/k", xAmzTarget := none }).2 (Or.inl rfl)
    rw [h]
    decide

/-- C9: `stop` is total (never throws), always leaves no listening
server, is idempotent, and is a pure no-op on a state in which the server
was never started or already stopped. -/
theorem stop_idempotent (s : ProxyState) :
    (stop s).serverListening = false
    ∧ stop (stop s) = stop s
    ∧ (s.serverListening = false → stop s = s) := by
  by_cases h : s.serverListening = true
  · simp [stop, h]
  · simp only [Bool.not_eq_true] at h
    simp [stop, h]

/-- Witness for C9 on the never-started state. -/
theorem stop_idempotent_witness :
    (stop { serverListening := false, httpProxyEnv := none, httpsProxyEnv := none }).serverListening = false
    ∧ stop (stop { serverListening := false, httpProxyEnv := none, httpsProxyEnv := none })
        = stop { serverListening := false, httpProxyEnv := none, httpsProxyEnv := none }
    ∧ stop { serverListening := false, httpProxyEnv := none, httpsProxyEnv := none }
        = { serverListening := false, httpProxyEnv := none, httpsProxyEnv := none } := by
  obtain ⟨a, b, c⟩ := stop_idempotent
    { serverListening := false, httpProxyEnv := none, httpsProxyEnv := none }
  exact ⟨a, b, c rfl⟩
